import Mathlib

/-
  Verification development for the okx1204 trading controller.

  Numeric string fields of the exchange/model JSON are modelled as `Option ℚ`:
  `some q` means the field is present and `parseFloat` yields the finite number
  `q`; `none` means the field is absent, empty, or unparseable (JS `NaN`).
  JS numbers are modelled by exact rationals; the binary-float rounding error
  of the source does not change any branch decided below (all comparisons are
  made with wide margins).  Division by zero (ℚ gives 0, JS gives ±Infinity)
  never occurs under the `0 < currentPrice` hypotheses carried by the theorems.
-/

/-- Instrument identifier (src/constants.ts, INSTRUMENT_ID). -/
def INSTRUMENT_ID : String := "ETH-USDT-SWAP"

/-- One ETH-USDT-SWAP contract is 0.1 ETH (src/constants.ts, CONTRACT_VAL_ETH). -/
def CONTRACT_VAL_ETH : ℚ := 1/10

/-- Taker fee rate, a conservative 0.05% (src/constants.ts, TAKER_FEE_RATE). -/
def TAKER_FEE_RATE : ℚ := 1/2000

/-- A strategy stage (src/constants.ts, STRATEGY_STAGES).  Fields that some of
the three stage object literals omit are modelled as `Option`; in particular
STAGE_3 defines no `risk_factor`. -/
structure StrategyStage where
  name : String
  max_equity : Option ℚ := none
  min_equity : Option ℚ := none
  leverage : ℚ
  risk_factor : Option ℚ := none
  allow_pyramiding : Option Bool := none
  pyramid_condition : Option String := none
  split_parts : Option ℕ := none

/-- STRATEGY_STAGES.STAGE_1 (src/constants.ts). -/
def STAGE_1 : StrategyStage :=
  { name := "起步期 (高风险搏杀)", max_equity := some 20, leverage := 20,
    risk_factor := some (4/5), allow_pyramiding := some true,
    pyramid_condition := some "profit_only" }

/-- STRATEGY_STAGES.STAGE_2 (src/constants.ts). -/
def STAGE_2 : StrategyStage :=
  { name := "滚仓期 (资金积累)", max_equity := some 80, leverage := 10,
    risk_factor := some (1/2) }

/-- STRATEGY_STAGES.STAGE_3 (src/constants.ts).  No risk_factor is defined. -/
def STAGE_3 : StrategyStage :=
  { name := "稳健期 (模式转型)", min_equity := some 80, leverage := 5,
    split_parts := some 8 }

/-- The stage selection if-chain, duplicated verbatim in
src/services/aiService.ts (lines 246-255) and src/unnamed/part_000
(lines 92-101): totalEquity < 20 → STAGE_1, < 80 → STAGE_2, else STAGE_3. -/
def stageOf (totalEquity : ℚ) : StrategyStage :=
  if totalEquity < 20 then STAGE_1
  else if totalEquity < 80 then STAGE_2
  else STAGE_3

/-- Position side (src/unnamed/part_004, PositionData.posSide). -/
inductive Side where
  | long
  | short
  | net
  deriving DecidableEq

/-- A position snapshot (src/unnamed/part_004, PositionData), restricted to
the fields the decision pipeline reads.  String-typed numeric fields are
modelled as parsed rationals (`pos`, `avgPx`, `upl`) or `Option ℚ` for the
optional trigger prices. -/
structure Position where
  instId : String
  posSide : Side
  pos : ℚ
  avgPx : ℚ
  upl : ℚ
  breakEvenPx : Option ℚ := none
  slTriggerPx : Option ℚ := none
  tpTriggerPx : Option ℚ := none

/-- The model's trading_decision object (src/unnamed/part_004, AIDecision).
`position_size = none` covers the three cases the source treats as "no
explicit size": field missing, empty string, or the literal string "0".
Narrative-only fields are omitted. -/
structure TradingDecision where
  action : String
  confidence : Option ℚ := none
  position_size : Option ℚ := none
  leverage : Option ℚ := none
  profit_target : Option ℚ := none
  stop_loss : Option ℚ := none

/-- The successfully parsed model reply: the trading_decision object plus the
reasoning narrative (the only other field the reconciler touches). -/
structure ModelDecision where
  trading_decision : TradingDecision
  reasoning : String

/-- Models the JS `String.prototype.toUpperCase` used to normalize the model
action (ASCII inputs only at the call sites). -/
def toUpperCase (s : String) : String := String.mk (s.data.map Char.toUpper)

/-- Models `parseFloat(decision.trading_decision.confidence) || 50`
(aiService.ts line 483, part_000 line 215): an unparseable confidence (NaN,
hence `none`) and a parsed 0 both fall back to 50 via JS `||`. -/
def parsedConfidence (c : Option ℚ) : ℚ :=
  match c with
  | some v => if v = 0 then 50 else v
  | none => 50

/-- Models JS `x.toFixed(2)` reparsed as a number, for the non-negative values
produced by the sizing code: round half-up to 2 decimal places. -/
def toFixed2 (q : ℚ) : ℚ := ((Int.floor (100 * q + 1/2) : ℤ) : ℚ) / 100

/-- Models JS `x.toFixed(2)` as a string, for the non-negative values
interpolated into correction notes. -/
def toFixed2Str (q : ℚ) : String :=
  let n := Int.floor (100 * q + 1/2)
  toString (n / 100) ++ "." ++ (if n % 100 < 10 then "0" else "") ++ toString (n % 100)

namespace AiService

/-- calcSMA (src/services/aiService.ts lines 7-12): arithmetic mean of the
last `period` elements, 0 when the series is shorter than `period`. -/
def calcSMA (data : List ℚ) (period : ℕ) : ℚ :=
  if data.length < period then 0 else
  ((data.drop (data.length - period)).foldl (· + ·) 0) / (period : ℚ)

/-- calcStdDev (src/services/aiService.ts lines 15-22): population standard
deviation of the last `period` elements, 0 when too short. -/
noncomputable def calcStdDev (data : List ℚ) (period : ℕ) : ℝ :=
  if data.length < period then 0 else
  let sma := calcSMA data period
  let slice := data.drop (data.length - period)
  let avgSquaredDiff := ((slice.map (fun x => (x - sma)^2)).foldl (· + ·) 0) / (period : ℚ)
  Real.sqrt (avgSquaredDiff : ℚ)

/-- calcRSI (src/services/aiService.ts lines 25-49): Wilder-smoothed RSI, 50
when fewer than `period + 1` prices, 100 when the average loss is zero. -/
def calcRSI (prices : List ℚ) (period : ℕ) : ℚ :=
  if prices.length < period + 1 then 50 else
  let diffs := List.zipWith (fun b a => b - a) prices.tail prices
  let gains := (diffs.take period).foldl (fun acc c => if 0 < c then acc + c else acc) 0
  let losses := (diffs.take period).foldl (fun acc c => if 0 < c then acc else acc - c) 0
  let start : ℚ × ℚ := (gains / (period : ℚ), losses / (period : ℚ))
  let avgs := (diffs.drop period).foldl
    (fun (av : ℚ × ℚ) c =>
      ((av.1 * ((period : ℚ) - 1) + (if 0 < c then c else 0)) / (period : ℚ),
       (av.2 * ((period : ℚ) - 1) + (if c < 0 then -c else 0)) / (period : ℚ)))
    start
  if avgs.2 = 0 then 100 else 100 - 100 / (1 + avgs.1 / avgs.2)

/-- calcEMA (src/services/aiService.ts lines 52-60).  When the series is
shorter than the period the source returns `prices[prices.length - 1]`, which
is `undefined` for the empty series; that case is modelled as `none`.  The
seeded walk of the sufficient-data branch also dereferences `prices[0]` and is
likewise `none` on the empty series (reachable only with period 0). -/
def calcEMA (prices : List ℚ) (period : ℕ) : Option ℚ :=
  if prices.length < period then prices.getLast? else
  match prices with
  | [] => none
  | p0 :: rest =>
      let k := 2 / ((period : ℚ) + 1)
      some (rest.foldl (fun e x => x * k + e * (1 - k)) p0)

/-- Result record of calcMACD. -/
structure MACDResult where
  macd : ℚ
  signal : ℚ
  hist : ℚ
  deriving DecidableEq

/-- calcMACD (src/services/aiService.ts lines 63-79): zero record when fewer
than 26 prices; otherwise EMA12/EMA26 over the trailing 24/52 prices, with the
signal line approximated as 0.8 × the MACD line.  In this branch both slices
are nonempty and at least as long as their periods, so the `getD 0` defaults
are never used. -/
def calcMACD (prices : List ℚ) : MACDResult :=
  if prices.length < 26 then ⟨0, 0, 0⟩ else
  let ema12 := (calcEMA (prices.drop (prices.length - 24)) 12).getD 0
  let ema26 := (calcEMA (prices.drop (prices.length - 52)) 26).getD 0
  let macdLine := ema12 - ema26
  let signalLine := macdLine * (4/5)
  ⟨macdLine, signalLine, macdLine - signalLine⟩

/-- Result record of calcBollinger. -/
structure BollingerResult where
  upper : ℝ
  mid : ℚ
  lower : ℝ

/-- calcBollinger (src/services/aiService.ts lines 82-90). -/
noncomputable def calcBollinger (prices : List ℚ) (period : ℕ) (multiplier : ℚ) : BollingerResult :=
  let mid := calcSMA prices period
  let std := calcStdDev prices period
  ⟨(mid : ℝ) + (multiplier : ℝ) * std, mid, (mid : ℝ) - (multiplier : ℝ) * std⟩

/-- Result record of calcKDJ. -/
structure KDJResult where
  k : ℚ
  d : ℚ
  j : ℚ
  deriving DecidableEq

/-- One iteration of the calcKDJ loop (src/services/aiService.ts lines
98-114): indices with `i < period - 1` are skipped (`continue`); otherwise the
9-period low/high window produces the RSV and K/D/J are smoothed 2/3-1/3.
The `getD 0` list reads are in range whenever the three lists have equal
length, as at the source call site. -/
def kdjStep (highs lows closes : List ℚ) (period : ℕ) (s : ℚ × ℚ × ℚ) (i : ℕ) : ℚ × ℚ × ℚ :=
  if i < period - 1 then s else
  let localLow := (List.range period).foldl (fun acc x => min acc (lows.getD (i - x) 0)) (lows.getD i 0)
  let localHigh := (List.range period).foldl (fun acc x => max acc (highs.getD (i - x) 0)) (highs.getD i 0)
  let rsv := if localHigh = localLow then (50 : ℚ)
    else (closes.getD i 0 - localLow) / (localHigh - localLow) * 100
  let k := (2/3) * s.1 + (1/3) * rsv
  let d := (2/3) * s.2.1 + (1/3) * k
  let j := 3 * k - 2 * d
  (k, d, j)

/-- calcKDJ (src/services/aiService.ts lines 93-116): sequential fold of
`kdjStep` over all close indices, seeded at (50, 50, 50). -/
def calcKDJ (highs lows closes : List ℚ) (period : ℕ) : KDJResult :=
  let final := (List.range closes.length).foldl (kdjStep highs lows closes period) (50, 50, 50)
  ⟨final.1, final.2.1, final.2.2⟩

/-- The strict breakeven computation of getTradingDecision
(src/services/aiService.ts lines 270-299): prefer the exchange-supplied
breakEvenPx when it parses to a positive number, otherwise derive a
round-trip-fee-adjusted breakeven from the entry price, per side ('long' gets
the (1+fee)/(1-fee) form, any other side the (1-fee)/(1+fee) form). -/
def breakevenPrice (posSide : Side) (entryPrice : ℚ) (breakEvenPx : Option ℚ) : ℚ :=
  let localBreakeven :=
    if posSide = Side.long then entryPrice * (1 + TAKER_FEE_RATE) / (1 - TAKER_FEE_RATE)
    else entryPrice * (1 - TAKER_FEE_RATE) / (1 + TAKER_FEE_RATE)
  let exchangeBreakeven := breakEvenPx.getD 0
  if 0 < exchangeBreakeven then exchangeBreakeven else localBreakeven

/-- The final decision object handed back by getTradingDecision: the mutated
top-level action/size/leverage/reasoning plus the untouched trading_decision.
`size = none` models the string "NaN" (reachable only via STAGE_3's missing
risk_factor). -/
structure FinalDecision where
  action : String
  size : Option ℚ
  leverage : ℚ
  reasoning : String
  trading_decision : TradingDecision

/-- The safe fallback object built in the catch block of getTradingDecision
(src/services/aiService.ts lines 522-543). -/
def errorDecision (msg : String) : FinalDecision :=
  { action := "HOLD", size := some 0, leverage := 0,
    reasoning := "System Error: " ++ msg,
    trading_decision :=
      { action := "hold", confidence := some 0, position_size := none,
        leverage := some 0, profit_target := some 0, stop_loss := some 0 } }

/-- `accountData.positions.find(p => p.instId === INSTRUMENT_ID)`
(src/services/aiService.ts line 241). -/
def primaryPositionOf (positions : List Position) : Option Position :=
  positions.find? fun p => p.instId = INSTRUMENT_ID

/-- `hasPosition = !!primaryPosition && parseFloat(primaryPosition.pos) > 0`
(src/services/aiService.ts line 257). -/
def hasPositionOf (positions : List Position) : Bool :=
  match primaryPositionOf positions with
  | some p => decide (0 < p.pos)
  | none => false

/-- The ratchet-mechanism safety check (src/services/aiService.ts lines
448-469): when the action is UPDATE_TPSL with an open position and both the
proposed and the recorded stop parse to positive numbers, a stop moving
against the holder forces HOLD and appends a rejection note; returns the
(action, reasoning) pair after the check. -/
def applyRatchet (primaryPosition : Option Position) (hasPosition : Bool)
    (action0 : String) (stop_loss : Option ℚ) (r : String) : String × String :=
  match primaryPosition, stop_loss with
  | some p, some newSL =>
      if action0 = "UPDATE_TPSL" ∧ hasPosition = true then
        let currentSL := p.slTriggerPx.getD 0
        if 0 < newSL ∧ 0 < currentSL then
          if p.posSide = Side.long then
            if newSL < currentSL then
              ("HOLD", r ++ " [系统拦截: 违反棘轮机制，禁止降低多单止损]")
            else (action0, r)
          else if p.posSide = Side.short then
            if currentSL < newSL then
              ("HOLD", r ++ " [系统拦截: 违反棘轮机制，禁止提高空单止损]")
            else (action0, r)
          else (action0, r)
        else (action0, r)
      else (action0, r)
  | _, _ => (action0, r)

/-- `const riskFactor = isAdding ? 0.3 : currentStageParams.risk_factor`
(src/services/aiService.ts line 478); `none` models the `undefined`
risk_factor of STAGE_3. -/
def riskFactorUsed (isAdding : Bool) (stage : StrategyStage) : Option ℚ :=
  if isAdding then some (3/10) else stage.risk_factor

/-- The algorithmic target-contract computation used when the model supplies
no size (src/services/aiService.ts lines 483-486). -/
def targetContractsAlgo (availEq price lev rf conf : ℚ) : ℚ :=
  let marginToUse := availEq * rf * (conf / 100)
  let posValue := marginToUse * lev
  posValue / (CONTRACT_VAL_ETH * price)

/-- The balance-derived contract cap (src/services/aiService.ts lines
494-496): maxMargin = availableEquity × 0.95, maxContracts =
maxMargin × leverage / (contractVal × price). -/
def maxContracts (availEq price lev : ℚ) : ℚ :=
  let maxMargin := availEq * (19/20)
  let maxPosValue := maxMargin * lev
  maxPosValue / (CONTRACT_VAL_ETH * price)

/-- The BUY/SELL sizing block of getTradingDecision (src/services/aiService.ts
lines 476-518), applied after the ratchet check: explicit model size or the
algorithmic target, capped at `maxContracts` (with a note), raised to at least
0.01 and rounded to 2 decimals; the final `< 0.01` recheck of the source is
kept although it is unreachable.  Non-BUY/SELL actions get size "0".
Returns (action, size, reasoning). -/
def sizingStep (availEq price lev : ℚ) (hasPosition : Bool) (stage : StrategyStage)
    (td : TradingDecision) (action1 r1 : String) : String × Option ℚ × String :=
  if action1 = "BUY" ∨ action1 = "SELL" then
    let isAdding := hasPosition
    let targetContracts : Option ℚ :=
      match td.position_size with
      | some s => some s
      | none =>
          match riskFactorUsed isAdding stage with
          | some rf => some (targetContractsAlgo availEq price lev rf (parsedConfidence td.confidence))
          | none => none
    match targetContracts with
    | none => (action1, none, r1)
    | some tc =>
        let mc := maxContracts availEq price lev
        let capped :=
          if mc < tc then
            (mc, r1 ++ " [资金管控: 仓位限制在余额允许范围内 " ++ toFixed2Str mc ++ "张]")
          else (tc, r1)
        let sizeQ := toFixed2 (max capped.1 (1/100))
        if sizeQ < 1/100 then
          ("HOLD", some 0, capped.2 ++ " [系统拦截: 账户余额不足以开出最小仓位]")
        else (action1, some sizeQ, capped.2)
  else (action1, some 0, r1)

/-- getTradingDecision (src/services/aiService.ts lines 196-544), modelled
from the model-response handling onward: the inputs are the already parsed
equity figures and price, the raw positions list, and the outcome of obtaining
and JSON-parsing the model text (`Except.error msg` for any throw inside the
try block: empty reply, non-JSON after fence stripping, upstream call
failure).  On success the action is uppercased, the ratchet check runs, the
leverage falls back to the stage default when unparseable, and the sizing
block rewrites action/size/reasoning. -/
def getTradingDecision (totalEq availEq currentPrice : ℚ) (positions : List Position)
    (outcome : Except String ModelDecision) : FinalDecision :=
  match outcome with
  | .error msg => errorDecision msg
  | .ok decision0 =>
      let currentStageParams := stageOf totalEq
      let primaryPosition := primaryPositionOf positions
      let hasPosition := hasPositionOf positions
      let action0 := toUpperCase decision0.trading_decision.action
      let ratcheted := applyRatchet primaryPosition hasPosition action0
        decision0.trading_decision.stop_loss decision0.reasoning
      let safeLeverage := decision0.trading_decision.leverage.getD currentStageParams.leverage
      let sized := sizingStep availEq currentPrice safeLeverage hasPosition currentStageParams
        decision0.trading_decision ratcheted.1 ratcheted.2
      { action := sized.1, size := sized.2.1, leverage := safeLeverage,
        reasoning := sized.2.2, trading_decision := decision0.trading_decision }

end AiService

namespace Part000

/-- MIN_OPEN_VALUE, the 100 USDT minimum notional floor
(src/unnamed/part_000 line 234). -/
def MIN_OPEN_VALUE : ℚ := 100

/-- The final decision object of the part_000 getTradingDecision.  Its
leverage field stays unassigned (`none`) on the two HOLD-degrade paths, which
never write `decision.leverage`. -/
structure FinalDecision where
  action : String
  size : Option ℚ
  leverage : Option ℚ
  reasoning : String
  trading_decision : TradingDecision

/-- The safe fallback object built in the catch block
(src/unnamed/part_000 lines 281-302). -/
def errorDecision (msg : String) : FinalDecision :=
  { action := "HOLD", size := some 0, leverage := some 0,
    reasoning := "System Error: " ++ msg,
    trading_decision :=
      { action := "hold", confidence := some 0, position_size := none,
        leverage := some 0, profit_target := some 0, stop_loss := some 0 } }

/-- Steps A and B of the part_000 sizing (lines 223-230): target margin
availableEquity × riskFactor × confidence/100, clamped by the 90% safety
buffer. -/
def finalMargin0 (availEq rf conf : ℚ) : ℚ :=
  min (availEq * rf * (conf / 100)) (availEq * (9/10))

/-- Step C of the part_000 sizing (lines 232-245): the position value after
the emergency floor boost, which fires when the value is under 100, the
account could support a 100-USDT position, and confidence is at least 40%. -/
def boostedValue (availEq rf conf lev : ℚ) : ℚ :=
  if finalMargin0 availEq rf conf * lev < MIN_OPEN_VALUE ∧
     MIN_OPEN_VALUE < availEq * (9/10) * lev ∧ 40 ≤ conf then MIN_OPEN_VALUE
  else finalMargin0 availEq rf conf * lev

/-- `Math.floor(numContractsRaw * 100) / 100` applied to
positionValue / (CONTRACT_VAL_ETH × price) (src/unnamed/part_000
lines 258-261). -/
def flooredContracts (pv price : ℚ) : ℚ :=
  ((Int.floor (100 * (pv / (CONTRACT_VAL_ETH * price))) : ℤ) : ℚ) / 100

/-- getTradingDecision of src/unnamed/part_000 (lines 65-303), modelled from
the model-response handling onward.  It ignores any model-supplied size and
the position entirely, recomputes margin from stage risk factor and
confidence, boosts to the 100-USDT floor when eligible, floors contracts to 2
decimals, and degrades to HOLD below the floor or below 0.01 contracts.  When
the stage has no risk_factor (STAGE_3) the JS arithmetic yields NaN all the
way to a size string "NaN" (modelled `none`) while the action passes through. -/
def getTradingDecision (totalEq availEq currentPrice : ℚ)
    (outcome : Except String ModelDecision) : FinalDecision :=
  match outcome with
  | .error msg => errorDecision msg
  | .ok d0 =>
      let stage := stageOf totalEq
      let action0 := toUpperCase d0.trading_decision.action
      let confidence := parsedConfidence d0.trading_decision.confidence
      let safeLeverage := d0.trading_decision.leverage.getD stage.leverage
      match stage.risk_factor with
      | none =>
          if action0 = "BUY" ∨ action0 = "SELL" then
            { action := action0, size := none, leverage := some safeLeverage,
              reasoning := d0.reasoning, trading_decision := d0.trading_decision }
          else
            { action := action0, size := some 0, leverage := some safeLeverage,
              reasoning := d0.reasoning, trading_decision := d0.trading_decision }
      | some rf =>
          let positionValue := boostedValue availEq rf confidence safeLeverage
          if action0 = "BUY" ∨ action0 = "SELL" then
            if positionValue < MIN_OPEN_VALUE then
              { action := "HOLD", size := some 0, leverage := none,
                reasoning := d0.reasoning ++ " [系统修正: 仓位价值 " ++
                  toFixed2Str positionValue ++
                  "U 过小，不足以支付手续费或满足交易所限制，已取消]",
                trading_decision := d0.trading_decision }
            else
              let numContracts := flooredContracts positionValue currentPrice
              if numContracts < 1/100 then
                { action := "HOLD", size := some 0, leverage := none,
                  reasoning := d0.reasoning ++ " [系统修正: 合约数量不足 0.01 张]",
                  trading_decision := d0.trading_decision }
              else
                { action := action0, size := some numContracts,
                  leverage := some safeLeverage, reasoning := d0.reasoning,
                  trading_decision := d0.trading_decision }
          else
            { action := action0, size := some 0, leverage := some safeLeverage,
              reasoning := d0.reasoning, trading_decision := d0.trading_decision }

end Part000

/-- Concrete long position with recorded stop 3000, the spec's ratchet
scenario. -/
def posC1 : Position :=
  { instId := "ETH-USDT-SWAP", posSide := Side.long, pos := 1, avgPx := 3000,
    upl := 0, slTriggerPx := some 3000 }

/-- Concrete model reply proposing UPDATE_TPSL with stop 2950 (below the
recorded 3000 stop of the long position). -/
def rawC1 : ModelDecision :=
  { trading_decision :=
      { action := "UPDATE_TPSL", confidence := some 80, position_size := none,
        leverage := some 20, stop_loss := some 2950 },
    reasoning := "r" }

/-- Concrete model reply: BUY at confidence 10%, leverage 20, no size (the
spec's sub-floor scenario). -/
def rawC2 : ModelDecision :=
  { trading_decision :=
      { action := "BUY", confidence := some 10, position_size := none,
        leverage := some 20 },
    reasoning := "r" }

/-- Concrete model reply: BUY at confidence 80%, leverage 20, no size (the
spec's first-entry sizing scenario). -/
def rawC3 : ModelDecision :=
  { trading_decision :=
      { action := "BUY", confidence := some 80, position_size := none,
        leverage := some 20 },
    reasoning := "r" }

/-- Concrete model reply: BUY with an explicit position size 0.001, below the
0.01 minimum increment. -/
def rawC4 : ModelDecision :=
  { trading_decision :=
      { action := "BUY", confidence := some 50, position_size := some (1/1000),
        leverage := some 20 },
    reasoning := "r" }

/-- Concrete model reply: HOLD with a parseable model leverage of 0. -/
def rawC8 : ModelDecision :=
  { trading_decision :=
      { action := "HOLD", confidence := some 50, leverage := some 0 },
    reasoning := "r" }

/-- Concrete model reply: HOLD with an unparseable model leverage. -/
def rawC8b : ModelDecision :=
  { trading_decision :=
      { action := "HOLD", confidence := some 50, leverage := none },
    reasoning := "r" }

/-- Concrete open long position used for the DCA risk-factor scenario. -/
def posC9 : Position :=
  { instId := "ETH-USDT-SWAP", posSide := Side.long, pos := 2, avgPx := 3000,
    upl := 5, slTriggerPx := some 2900 }

/-- Concrete model reply: add-to-position BUY at confidence 50%, leverage 20,
no size. -/
def rawC9 : ModelDecision :=
  { trading_decision :=
      { action := "BUY", confidence := some 50, position_size := none,
        leverage := some 20 },
    reasoning := "r" }

/-- Concrete open long position with no recorded stop-loss. -/
def posC10 : Position :=
  { instId := "ETH-USDT-SWAP", posSide := Side.long, pos := 1, avgPx := 3000,
    upl := 0, slTriggerPx := none }

/-- Concrete model reply: UPDATE_TPSL proposing stop 3100 against a position
with no recorded stop. -/
def rawC10 : ModelDecision :=
  { trading_decision :=
      { action := "UPDATE_TPSL", confidence := some 80, position_size := none,
        leverage := some 20, stop_loss := some 3100 },
    reasoning := "r" }

lemma toUpperCase_BUY : toUpperCase "BUY" = "BUY" := by decide

lemma toUpperCase_HOLD : toUpperCase "HOLD" = "HOLD" := by decide

lemma toUpperCase_UPDATE_TPSL : toUpperCase "UPDATE_TPSL" = "UPDATE_TPSL" := by decide

lemma toFixed2_ge_min {q : ℚ} (h : 1/100 ≤ q) : 1/100 ≤ toFixed2 q := by
  unfold toFixed2
  have h1 : (1 : ℤ) ≤ Int.floor (100 * q + 1/2) := by
    refine Int.le_floor.mpr ?_
    push_cast
    linarith
  have h2 : (1 : ℚ) ≤ ((Int.floor (100 * q + 1/2) : ℤ) : ℚ) := by exact_mod_cast h1
  linarith

lemma stage_leverage_pos (totalEq : ℚ) : 0 < (stageOf totalEq).leverage := by
  unfold stageOf
  split_ifs <;> norm_num [STAGE_1, STAGE_2, STAGE_3]

lemma hasPositionOf_eq_true {positions : List Position} {p : Position}
    (hfind : AiService.primaryPositionOf positions = some p) (hpos : 0 < p.pos) :
    AiService.hasPositionOf positions = true := by
  unfold AiService.hasPositionOf
  rw [hfind]
  simp [hpos]

lemma applyRatchet_not_update {pp : Option Position} {hp : Bool} {a0 : String}
    {sl : Option ℚ} {r : String} (h : ¬ a0 = "UPDATE_TPSL") :
    AiService.applyRatchet pp hp a0 sl r = (a0, r) := by
  cases pp <;> cases sl <;> simp [AiService.applyRatchet, h]

lemma applyRatchet_no_gate {p : Position} {hp : Bool} {a0 : String}
    {sl : Option ℚ} {r : String}
    (h : ¬ (0 < sl.getD 0 ∧ 0 < p.slTriggerPx.getD 0)) :
    AiService.applyRatchet (some p) hp a0 sl r = (a0, r) := by
  cases sl with
  | none => simp [AiService.applyRatchet]
  | some v =>
      simp only [Option.getD_some] at h
      simp [AiService.applyRatchet, h]

lemma applyRatchet_reject_long {p : Position} {newSL curSL : ℚ} {r : String}
    (hside : p.posSide = Side.long) (hcur : p.slTriggerPx = some curSL)
    (hn : 0 < newSL) (hc : 0 < curSL) (hlt : newSL < curSL) :
    AiService.applyRatchet (some p) true "UPDATE_TPSL" (some newSL) r =
      ("HOLD", r ++ " [系统拦截: 违反棘轮机制，禁止降低多单止损]") := by
  simp only [AiService.applyRatchet, hcur, Option.getD_some]
  simp [hside, hn, hc, hlt]

lemma applyRatchet_reject_short {p : Position} {newSL curSL : ℚ} {r : String}
    (hside : p.posSide = Side.short) (hcur : p.slTriggerPx = some curSL)
    (hn : 0 < newSL) (hc : 0 < curSL) (hlt : curSL < newSL) :
    AiService.applyRatchet (some p) true "UPDATE_TPSL" (some newSL) r =
      ("HOLD", r ++ " [系统拦截: 违反棘轮机制，禁止提高空单止损]") := by
  simp only [AiService.applyRatchet, hcur, Option.getD_some]
  simp [hside, hn, hc, hlt]

lemma sizingStep_not_trade {availEq price lev : ℚ} {hp : Bool} {stage : StrategyStage}
    {td : TradingDecision} {a1 r1 : String} (h : ¬ (a1 = "BUY" ∨ a1 = "SELL")) :
    AiService.sizingStep availEq price lev hp stage td a1 r1 = (a1, some 0, r1) := by
  unfold AiService.sizingStep
  rw [if_neg h]

lemma sizingStep_algo {availEq price lev : ℚ} {hp : Bool} {stage : StrategyStage}
    {td : TradingDecision} {a1 r1 : String} {rf : ℚ}
    (ha : a1 = "BUY" ∨ a1 = "SELL") (hsz : td.position_size = none)
    (hrf : AiService.riskFactorUsed hp stage = some rf) :
    (AiService.sizingStep availEq price lev hp stage td a1 r1).1 = a1 ∧
    (AiService.sizingStep availEq price lev hp stage td a1 r1).2.1 =
      some (toFixed2 (max (min
        (AiService.targetContractsAlgo availEq price lev rf (parsedConfidence td.confidence))
        (AiService.maxContracts availEq price lev)) (1/100))) := by
  have hge : ¬ toFixed2 (max (min
      (AiService.targetContractsAlgo availEq price lev rf (parsedConfidence td.confidence))
      (AiService.maxContracts availEq price lev)) (1/100)) < 1/100 :=
    not_lt.mpr (toFixed2_ge_min (le_max_right _ _))
  simp only [AiService.sizingStep, hsz, hrf, if_pos ha]
  rcases lt_or_le (AiService.maxContracts availEq price lev)
      (AiService.targetContractsAlgo availEq price lev rf (parsedConfidence td.confidence)) with h | h
  · rw [min_eq_right h.le] at hge ⊢
    simp only [if_pos h]
    rw [if_neg hge]
    exact ⟨rfl, rfl⟩
  · rw [min_eq_left h] at hge ⊢
    simp only [if_neg (not_lt.mpr h)]
    rw [if_neg hge]
    exact ⟨rfl, rfl⟩

/-- Claim C1: when a model UPDATE_TPSL decision is reconciled while a position
is open and both the recorded and the proposed stop-loss parse to positive
numbers, a proposed stop moving against the holder (long: proposed < recorded;
short: proposed > recorded) overrides the action to HOLD, appends a rejection
note to the reasoning, and leaves the proposed trading_decision untouched, so
the recorded stop remains authoritative. -/
theorem c1_update_tpsl_ratchet_forces_hold
    (totalEq availEq currentPrice : ℚ) (positions : List Position) (p : Position)
    (raw : ModelDecision) (newSL curSL : ℚ)
    (hfind : AiService.primaryPositionOf positions = some p)
    (hpos : 0 < p.pos)
    (hact : toUpperCase raw.trading_decision.action = "UPDATE_TPSL")
    (hsl : raw.trading_decision.stop_loss = some newSL)
    (hcur : p.slTriggerPx = some curSL)
    (hn : 0 < newSL) (hc : 0 < curSL)
    (hmove : (p.posSide = Side.long ∧ newSL < curSL) ∨
      (p.posSide = Side.short ∧ curSL < newSL)) :
    (AiService.getTradingDecision totalEq availEq currentPrice positions (Except.ok raw)).action = "HOLD" ∧
    (AiService.getTradingDecision totalEq availEq currentPrice positions (Except.ok raw)).size = some 0 ∧
    (AiService.getTradingDecision totalEq availEq currentPrice positions (Except.ok raw)).reasoning =
      raw.reasoning ++ (if p.posSide = Side.long
        then " [系统拦截: 违反棘轮机制，禁止降低多单止损]"
        else " [系统拦截: 违反棘轮机制，禁止提高空单止损]") ∧
    (AiService.getTradingDecision totalEq availEq currentPrice positions (Except.ok raw)).trading_decision =
      raw.trading_decision := by
  have hhp := hasPositionOf_eq_true hfind hpos
  have hns : ¬ ("HOLD" = "BUY" ∨ "HOLD" = "SELL") := by decide
  rcases hmove with ⟨hside, hlt⟩ | ⟨hside, hlt⟩
  · simp only [AiService.getTradingDecision, hfind, hhp, hact, hsl,
      applyRatchet_reject_long hside hcur hn hc hlt, sizingStep_not_trade hns, hside, if_pos]
    exact ⟨trivial, trivial, trivial, trivial⟩
  · have hnl : ¬ p.posSide = Side.long := by rw [hside]; decide
    simp only [AiService.getTradingDecision, hfind, hhp, hact, hsl,
      applyRatchet_reject_short hside hcur hn hc hlt, sizingStep_not_trade hns, hnl, if_neg]
    exact ⟨trivial, trivial, by simp, trivial⟩

/-- Witness for C1 at the spec scenario: long position, recorded stop 3000,
model proposes UPDATE_TPSL with stop 2950 → HOLD with the rejection note. -/
theorem c1_update_tpsl_ratchet_forces_hold_witness :
    AiService.primaryPositionOf [posC1] = some posC1 ∧
    0 < posC1.pos ∧
    toUpperCase rawC1.trading_decision.action = "UPDATE_TPSL" ∧
    rawC1.trading_decision.stop_loss = some 2950 ∧
    posC1.slTriggerPx = some 3000 ∧
    (0:ℚ) < 2950 ∧ (0:ℚ) < 3000 ∧ (2950:ℚ) < 3000 ∧
    (AiService.getTradingDecision 15 15 3200 [posC1] (Except.ok rawC1)).action = "HOLD" ∧
    (AiService.getTradingDecision 15 15 3200 [posC1] (Except.ok rawC1)).size = some 0 ∧
    (AiService.getTradingDecision 15 15 3200 [posC1] (Except.ok rawC1)).reasoning =
      "r" ++ " [系统拦截: 违反棘轮机制，禁止降低多单止损]" := by
  have hfind : AiService.primaryPositionOf [posC1] = some posC1 := by
    simp [AiService.primaryPositionOf, posC1, INSTRUMENT_ID]
  have h := c1_update_tpsl_ratchet_forces_hold 15 15 3200 [posC1] posC1 rawC1 2950 3000
    hfind (by norm_num [posC1]) (by decide) rfl rfl (by norm_num) (by norm_num)
    (Or.inl ⟨rfl, by norm_num⟩)
  refine ⟨hfind, by norm_num [posC1], by decide, rfl, rfl, by norm_num, by norm_num,
    by norm_num, h.1, h.2.1, ?_⟩
  rw [h.2.2.1]
  norm_num [posC1, rawC1]

/-- Claim C10: the UPDATE_TPSL ratchet gate fires only when both the proposed
and the recorded stop parse to positive numbers; otherwise (recorded stop
absent/zero/unparseable, or proposed stop unparseable/non-positive) the
UPDATE_TPSL action passes through with the proposed stop and the reasoning
unmodified (size normalized to "0" as for every non-BUY/SELL action). -/
theorem c10_ratchet_gate_requires_positive_stops
    (totalEq availEq currentPrice : ℚ) (positions : List Position) (p : Position)
    (raw : ModelDecision)
    (hfind : AiService.primaryPositionOf positions = some p)
    (hpos : 0 < p.pos)
    (hact : toUpperCase raw.trading_decision.action = "UPDATE_TPSL")
    (hgate : ¬ (0 < raw.trading_decision.stop_loss.getD 0 ∧
      0 < p.slTriggerPx.getD 0)) :
    (AiService.getTradingDecision totalEq availEq currentPrice positions (Except.ok raw)).action = "UPDATE_TPSL" ∧
    (AiService.getTradingDecision totalEq availEq currentPrice positions (Except.ok raw)).reasoning = raw.reasoning ∧
    (AiService.getTradingDecision totalEq availEq currentPrice positions (Except.ok raw)).trading_decision.stop_loss =
      raw.trading_decision.stop_loss ∧
    (AiService.getTradingDecision totalEq availEq currentPrice positions (Except.ok raw)).size = some 0 := by
  have hhp := hasPositionOf_eq_true hfind hpos
  have hns : ¬ ("UPDATE_TPSL" = "BUY" ∨ "UPDATE_TPSL" = "SELL") := by decide
  simp only [AiService.getTradingDecision, hfind, hhp, hact,
    applyRatchet_no_gate hgate, sizingStep_not_trade hns]
  exact ⟨trivial, trivial, trivial, trivial⟩

/-- Witness for C10: open long position with no recorded stop; the proposed
stop 3100 passes through unmodified and no override happens. -/
theorem c10_ratchet_gate_requires_positive_stops_witness :
    AiService.primaryPositionOf [posC10] = some posC10 ∧
    0 < posC10.pos ∧
    toUpperCase rawC10.trading_decision.action = "UPDATE_TPSL" ∧
    ¬ (0 < rawC10.trading_decision.stop_loss.getD 0 ∧
      0 < posC10.slTriggerPx.getD 0) ∧
    (AiService.getTradingDecision 15 15 3200 [posC10] (Except.ok rawC10)).action = "UPDATE_TPSL" ∧
    (AiService.getTradingDecision 15 15 3200 [posC10] (Except.ok rawC10)).reasoning = "r" ∧
    (AiService.getTradingDecision 15 15 3200 [posC10] (Except.ok rawC10)).trading_decision.stop_loss = some 3100 := by
  have hfind : AiService.primaryPositionOf [posC10] = some posC10 := by
    simp [AiService.primaryPositionOf, posC10, INSTRUMENT_ID]
  have hgate : ¬ (0 < rawC10.trading_decision.stop_loss.getD 0 ∧
      0 < posC10.slTriggerPx.getD 0) := by
    norm_num [rawC10, posC10]
  have h := c10_ratchet_gate_requires_positive_stops 15 15 3200 [posC10] posC10 rawC10
    hfind (by norm_num [posC10]) (by decide) hgate
  exact ⟨hfind, by norm_num [posC10], by decide, hgate, h.1, h.2.1,
    by rw [h.2.2.1]; rfl⟩


/-- Claim C7: any failure while obtaining or parsing the model response
(empty reply, non-JSON text, upstream error) makes getTradingDecision return
— not propagate — a safe decision: action HOLD, size and leverage both zero,
and the error message carried in the reasoning narrative. -/
theorem c7_parse_failure_safe_hold (totalEq availEq currentPrice : ℚ)
    (positions : List Position) (msg : String) :
    (AiService.getTradingDecision totalEq availEq currentPrice positions (Except.error msg)).action = "HOLD" ∧
    (AiService.getTradingDecision totalEq availEq currentPrice positions (Except.error msg)).size = some 0 ∧
    (AiService.getTradingDecision totalEq availEq currentPrice positions (Except.error msg)).leverage = 0 ∧
    (AiService.getTradingDecision totalEq availEq currentPrice positions (Except.error msg)).reasoning =
      "System Error: " ++ msg :=
  ⟨rfl, rfl, rfl, rfl⟩

/-- Counterexample to C8 as stated: the model leverage "0" parses (it is not
NaN), so no fallback fires and the reconciled decision carries leverage 0,
which is not strictly positive. -/
theorem c8_zero_leverage_counterexample :
    (AiService.getTradingDecision 15 15 3250 [] (Except.ok rawC8)).leverage = 0 ∧
    ¬ 0 < (AiService.getTradingDecision 15 15 3250 [] (Except.ok rawC8)).leverage := by
  have h : (AiService.getTradingDecision 15 15 3250 [] (Except.ok rawC8)).leverage = 0 := rfl
  exact ⟨h, by rw [h]; norm_num⟩

/-- Claim C8 (amended): the reconciled leverage always equals the model
leverage when it parses — even zero or negative — and falls back to the
active stage's default exactly when it is unparseable; since every stage
default is positive, leverage > 0 is guaranteed in the unparseable case. -/
theorem c8_leverage_fallback (totalEq availEq currentPrice : ℚ)
    (positions : List Position) (raw : ModelDecision) :
    (AiService.getTradingDecision totalEq availEq currentPrice positions (Except.ok raw)).leverage =
      raw.trading_decision.leverage.getD (stageOf totalEq).leverage ∧
    (raw.trading_decision.leverage = none →
      0 < (AiService.getTradingDecision totalEq availEq currentPrice positions (Except.ok raw)).leverage) := by
  have h1 : (AiService.getTradingDecision totalEq availEq currentPrice positions (Except.ok raw)).leverage =
      raw.trading_decision.leverage.getD (stageOf totalEq).leverage := rfl
  refine ⟨h1, fun hnone => ?_⟩
  rw [h1, hnone, Option.getD_none]
  exact stage_leverage_pos totalEq

/-- Witness for C8 (amended): an unparseable model leverage at total equity 15
falls back to the stage-1 default 20 > 0. -/
theorem c8_leverage_fallback_witness :
    rawC8b.trading_decision.leverage = none ∧
    (AiService.getTradingDecision 15 15 3250 [] (Except.ok rawC8b)).leverage = 20 ∧
    0 < (AiService.getTradingDecision 15 15 3250 [] (Except.ok rawC8b)).leverage := by
  have h := c8_leverage_fallback 15 15 3250 [] rawC8b
  refine ⟨rfl, ?_, h.2 rfl⟩
  rw [h.1]
  norm_num [rawC8b, stageOf, STAGE_1]

/-- Counterexample to C3 as stated: the emitted order's margin can exceed
availableEquity × safetyReserveFraction.  With availableEquity 0.001 (total
equity 15, stage 1), a BUY at 80% confidence and leverage 20 at price 3250
computes a tiny contract count, but `Math.max(targetContracts, 0.01)` raises
the emitted size to 0.01 contracts, whose margin 0.01 × 0.1 × 3250 / 20 =
0.1625 is far above 0.95 × 0.001 = 0.00095 (and above the whole 0.90–0.95
band): the cap holds only before quantization. -/
theorem c3_cap_exceeded_counterexample :
    (AiService.getTradingDecision 15 (1/1000) 3250 [] (Except.ok rawC3)).action = "BUY" ∧
    (AiService.getTradingDecision 15 (1/1000) 3250 [] (Except.ok rawC3)).size = some (1/100) ∧
    (1/1000 : ℚ) * (19/20) < (1/100 : ℚ) * (CONTRACT_VAL_ETH * 3250) / 20 := by
  refine ⟨?_, ?_, by norm_num [CONTRACT_VAL_ETH]⟩ <;>
  norm_num [AiService.getTradingDecision, AiService.sizingStep, AiService.applyRatchet,
    AiService.hasPositionOf, AiService.primaryPositionOf, AiService.riskFactorUsed,
    AiService.targetContractsAlgo, AiService.maxContracts, parsedConfidence, toFixed2,
    stageOf, STAGE_1, CONTRACT_VAL_ETH, rawC3, toUpperCase_BUY, Int.floor_eq_iff]

/-- Claim C3 (amended): for a BUY/SELL reconciled with no open position and
no model-supplied size, the computed target contracts embody margin =
availableEquity × stage.riskFactor × confidence/100, and the cap keeps the
pre-quantization margin at or below availableEquity × 0.95; the subsequent
quantization (raise to the 0.01-contract minimum, round to 2 decimals) can
push the emitted margin above that cap.  The final size is at least the 0.01
minimum (hence non-zero) and the leverage is attached, as in the spec's
equity-15 confidence-80% scenario. -/
theorem c3_margin_formula_and_cap
    (totalEq availEq currentPrice : ℚ) (positions : List Position)
    (raw : ModelDecision) (rf : ℚ)
    (hnopos : AiService.hasPositionOf positions = false)
    (hact : toUpperCase raw.trading_decision.action = "BUY" ∨
      toUpperCase raw.trading_decision.action = "SELL")
    (hsz : raw.trading_decision.position_size = none)
    (hrf : (stageOf totalEq).risk_factor = some rf)
    (hp : 0 < currentPrice)
    (hl : 0 < raw.trading_decision.leverage.getD (stageOf totalEq).leverage) :
    (AiService.getTradingDecision totalEq availEq currentPrice positions (Except.ok raw)).action =
      toUpperCase raw.trading_decision.action ∧
    (AiService.getTradingDecision totalEq availEq currentPrice positions (Except.ok raw)).leverage =
      raw.trading_decision.leverage.getD (stageOf totalEq).leverage ∧
    (AiService.getTradingDecision totalEq availEq currentPrice positions (Except.ok raw)).size =
      some (toFixed2 (max (min
        (AiService.targetContractsAlgo availEq currentPrice
          (raw.trading_decision.leverage.getD (stageOf totalEq).leverage) rf
          (parsedConfidence raw.trading_decision.confidence))
        (AiService.maxContracts availEq currentPrice
          (raw.trading_decision.leverage.getD (stageOf totalEq).leverage))) (1/100))) ∧
    1/100 ≤ toFixed2 (max (min
        (AiService.targetContractsAlgo availEq currentPrice
          (raw.trading_decision.leverage.getD (stageOf totalEq).leverage) rf
          (parsedConfidence raw.trading_decision.confidence))
        (AiService.maxContracts availEq currentPrice
          (raw.trading_decision.leverage.getD (stageOf totalEq).leverage))) (1/100)) ∧
    min
        (AiService.targetContractsAlgo availEq currentPrice
          (raw.trading_decision.leverage.getD (stageOf totalEq).leverage) rf
          (parsedConfidence raw.trading_decision.confidence))
        (AiService.maxContracts availEq currentPrice
          (raw.trading_decision.leverage.getD (stageOf totalEq).leverage)) *
      (CONTRACT_VAL_ETH * currentPrice) /
      (raw.trading_decision.leverage.getD (stageOf totalEq).leverage) ≤
      availEq * (19/20) := by
  have hnotup : ¬ toUpperCase raw.trading_decision.action = "UPDATE_TPSL" := by
    rcases hact with h | h <;> rw [h] <;> decide
  have hriskused : AiService.riskFactorUsed false (stageOf totalEq) = some rf := by
    simpa [AiService.riskFactorUsed] using hrf
  have hs := @sizingStep_algo availEq currentPrice
    (raw.trading_decision.leverage.getD (stageOf totalEq).leverage) false (stageOf totalEq)
    raw.trading_decision (toUpperCase raw.trading_decision.action) raw.reasoning rf
    hact hsz hriskused
  have hcp : (0:ℚ) < CONTRACT_VAL_ETH * currentPrice := by
    rw [CONTRACT_VAL_ETH]
    positivity
  refine ⟨?_, rfl, ?_, toFixed2_ge_min (le_max_right _ _), ?_⟩
  · simp only [AiService.getTradingDecision, hnopos, applyRatchet_not_update hnotup]
    exact hs.1
  · simp only [AiService.getTradingDecision, hnopos, applyRatchet_not_update hnotup]
    exact hs.2
  · have h3 : min
        (AiService.targetContractsAlgo availEq currentPrice
          (raw.trading_decision.leverage.getD (stageOf totalEq).leverage) rf
          (parsedConfidence raw.trading_decision.confidence))
        (AiService.maxContracts availEq currentPrice
          (raw.trading_decision.leverage.getD (stageOf totalEq).leverage)) *
        (CONTRACT_VAL_ETH * currentPrice) ≤
        AiService.maxContracts availEq currentPrice
          (raw.trading_decision.leverage.getD (stageOf totalEq).leverage) *
        (CONTRACT_VAL_ETH * currentPrice) :=
      mul_le_mul_of_nonneg_right (min_le_right _ _) hcp.le
    have h4 := (div_le_div_iff_of_pos_right hl).mpr h3
    refine h4.trans (le_of_eq ?_)
    unfold AiService.maxContracts
    field_simp
    ring

/-- Witness for C3 at the spec scenario: equity 15, no position, BUY at 80%
confidence and leverage 20 with no size, price 3250 → margin 9.6, notional
192, emitted size 0.59 at leverage 20. -/
theorem c3_margin_formula_and_cap_witness :
    AiService.hasPositionOf [] = false ∧
    toUpperCase rawC3.trading_decision.action = "BUY" ∧
    rawC3.trading_decision.position_size = none ∧
    (stageOf 15).risk_factor = some (4/5) ∧
    (0:ℚ) < 3250 ∧
    0 < rawC3.trading_decision.leverage.getD (stageOf 15).leverage ∧
    (AiService.getTradingDecision 15 15 3250 [] (Except.ok rawC3)).action = "BUY" ∧
    (AiService.getTradingDecision 15 15 3250 [] (Except.ok rawC3)).size = some (59/100) ∧
    (AiService.getTradingDecision 15 15 3250 [] (Except.ok rawC3)).leverage = 20 := by
  have hrf : (stageOf 15).risk_factor = some (4/5) := by norm_num [stageOf, STAGE_1]
  have hl : 0 < rawC3.trading_decision.leverage.getD (stageOf 15).leverage := by
    norm_num [rawC3]
  have h := c3_margin_formula_and_cap 15 15 3250 [] rawC3 (4/5) rfl (Or.inl (by decide))
    rfl hrf (by norm_num) hl
  refine ⟨rfl, by decide, rfl, hrf, by norm_num, hl, ?_, ?_, ?_⟩
  · rw [h.1]; decide
  · rw [h.2.2.1]
    norm_num [AiService.targetContractsAlgo, AiService.maxContracts, parsedConfidence,
      toFixed2, rawC3, stageOf, STAGE_1, CONTRACT_VAL_ETH, min_def, max_def, Int.floor_eq_iff]
  · rw [h.2.1]; norm_num [rawC3]

/-- Claim C9: a BUY/SELL reconciled while a position is already open (DCA or
pyramiding) with no model-supplied size computes its target contracts from
the fixed risk factor 0.3 instead of the stage risk factor, which is used
only for first entries. -/
theorem c9_dca_fixed_risk_factor
    (totalEq availEq currentPrice : ℚ) (positions : List Position) (p : Position)
    (raw : ModelDecision)
    (hfind : AiService.primaryPositionOf positions = some p)
    (hpos : 0 < p.pos)
    (hact : toUpperCase raw.trading_decision.action = "BUY" ∨
      toUpperCase raw.trading_decision.action = "SELL")
    (hsz : raw.trading_decision.position_size = none)
    (_hp : 0 < currentPrice) :
    AiService.riskFactorUsed true (stageOf totalEq) = some (3/10) ∧
    (AiService.getTradingDecision totalEq availEq currentPrice positions (Except.ok raw)).action =
      toUpperCase raw.trading_decision.action ∧
    (AiService.getTradingDecision totalEq availEq currentPrice positions (Except.ok raw)).size =
      some (toFixed2 (max (min
        (AiService.targetContractsAlgo availEq currentPrice
          (raw.trading_decision.leverage.getD (stageOf totalEq).leverage) (3/10)
          (parsedConfidence raw.trading_decision.confidence))
        (AiService.maxContracts availEq currentPrice
          (raw.trading_decision.leverage.getD (stageOf totalEq).leverage))) (1/100))) := by
  have hhp := hasPositionOf_eq_true hfind hpos
  have hnotup : ¬ toUpperCase raw.trading_decision.action = "UPDATE_TPSL" := by
    rcases hact with h | h <;> rw [h] <;> decide
  have hriskused : AiService.riskFactorUsed true (stageOf totalEq) = some (3/10) := by
    simp [AiService.riskFactorUsed]
  have hs := @sizingStep_algo availEq currentPrice
    (raw.trading_decision.leverage.getD (stageOf totalEq).leverage) true (stageOf totalEq)
    raw.trading_decision (toUpperCase raw.trading_decision.action) raw.reasoning (3/10)
    hact hsz hriskused
  refine ⟨hriskused, ?_, ?_⟩
  · simp only [AiService.getTradingDecision, hhp, hfind, applyRatchet_not_update hnotup]
    exact hs.1
  · simp only [AiService.getTradingDecision, hhp, hfind, applyRatchet_not_update hnotup]
    exact hs.2

/-- Witness for C9: open long position, BUY at 50% confidence with no size,
equity 15, price 3250 → the 0.3 risk factor yields margin 2.25, notional 45,
size 0.14. -/
theorem c9_dca_fixed_risk_factor_witness :
    AiService.primaryPositionOf [posC9] = some posC9 ∧
    0 < posC9.pos ∧
    toUpperCase rawC9.trading_decision.action = "BUY" ∧
    rawC9.trading_decision.position_size = none ∧
    (0:ℚ) < 3250 ∧
    AiService.riskFactorUsed true (stageOf 15) = some (3/10) ∧
    (AiService.getTradingDecision 15 15 3250 [posC9] (Except.ok rawC9)).action = "BUY" ∧
    (AiService.getTradingDecision 15 15 3250 [posC9] (Except.ok rawC9)).size = some (7/50) := by
  have hfind : AiService.primaryPositionOf [posC9] = some posC9 := by
    simp [AiService.primaryPositionOf, posC9, INSTRUMENT_ID]
  have h := c9_dca_fixed_risk_factor 15 15 3250 [posC9] posC9 rawC9 hfind
    (by norm_num [posC9]) (Or.inl (by decide)) rfl (by norm_num)
  refine ⟨hfind, by norm_num [posC9], by decide, rfl, by norm_num, h.1, ?_, ?_⟩
  · rw [h.2.1]; decide
  · rw [h.2.2]
    norm_num [AiService.targetContractsAlgo, AiService.maxContracts, parsedConfidence,
      toFixed2, rawC9, stageOf, STAGE_1, CONTRACT_VAL_ETH, min_def, max_def, Int.floor_eq_iff]

/-- Counterexample to C2 as stated: the live reconciler
(src/services/aiService.ts, the one src/server.ts invokes) enforces no
100-USDT notional floor.  At the claim's own scenario — equity 15, no
position, model BUY at confidence 10% and leverage 20 (price 3250) — it emits
BUY with size 0.07, whose notional 0.07 × 0.1 × 3250 = 22.75 is far below
100, instead of the claimed HOLD with size "0". -/
theorem c2_no_floor_counterexample :
    (AiService.getTradingDecision 15 15 3250 [] (Except.ok rawC2)).action = "BUY" ∧
    (AiService.getTradingDecision 15 15 3250 [] (Except.ok rawC2)).size = some (7/100) ∧
    (7/100 : ℚ) * CONTRACT_VAL_ETH * 3250 < 100 := by
  refine ⟨?_, ?_, by norm_num [CONTRACT_VAL_ETH]⟩ <;>
  norm_num [AiService.getTradingDecision, AiService.sizingStep, AiService.applyRatchet,
    AiService.hasPositionOf, AiService.primaryPositionOf, AiService.riskFactorUsed,
    AiService.targetContractsAlgo, AiService.maxContracts, parsedConfidence, toFixed2,
    stageOf, STAGE_1, CONTRACT_VAL_ETH, rawC2, toUpperCase_BUY, Int.floor_eq_iff]

/-- Claim C2 (amended): in the part_000 reconciler, whenever the active stage
defines a risk factor (STAGE_1/STAGE_2, total equity < 80), every reconciled
decision whose final action is BUY or SELL has (possibly boosted)
margin × leverage ≥ 100 USDT, and when the risk-computed notional is below the
floor and the 40%-confidence boost condition is not met the action is forced
to HOLD with size "0"; at STAGE_3 the stage defines no risk factor, the JS
sizing arithmetic degenerates to NaN, and a model BUY/SELL passes through
with size "NaN" (`none`) and no floor enforcement. -/
theorem c2_min_notional_floor_part000
    (totalEq availEq currentPrice : ℚ) (raw : ModelDecision) :
    (∀ rf : ℚ, (stageOf totalEq).risk_factor = some rf →
      ((Part000.getTradingDecision totalEq availEq currentPrice (Except.ok raw)).action = "BUY" ∨
       (Part000.getTradingDecision totalEq availEq currentPrice (Except.ok raw)).action = "SELL" →
        Part000.MIN_OPEN_VALUE ≤ Part000.boostedValue availEq rf
          (parsedConfidence raw.trading_decision.confidence)
          (raw.trading_decision.leverage.getD (stageOf totalEq).leverage)) ∧
      ((toUpperCase raw.trading_decision.action = "BUY" ∨
        toUpperCase raw.trading_decision.action = "SELL") →
        Part000.finalMargin0 availEq rf (parsedConfidence raw.trading_decision.confidence) *
          (raw.trading_decision.leverage.getD (stageOf totalEq).leverage) <
          Part000.MIN_OPEN_VALUE →
        ¬ (Part000.MIN_OPEN_VALUE < availEq * (9/10) *
            (raw.trading_decision.leverage.getD (stageOf totalEq).leverage) ∧
            40 ≤ parsedConfidence raw.trading_decision.confidence) →
        (Part000.getTradingDecision totalEq availEq currentPrice (Except.ok raw)).action = "HOLD" ∧
        (Part000.getTradingDecision totalEq availEq currentPrice (Except.ok raw)).size = some 0)) ∧
    ((stageOf totalEq).risk_factor = none →
      (toUpperCase raw.trading_decision.action = "BUY" ∨
       toUpperCase raw.trading_decision.action = "SELL") →
      (Part000.getTradingDecision totalEq availEq currentPrice (Except.ok raw)).action =
        toUpperCase raw.trading_decision.action ∧
      (Part000.getTradingDecision totalEq availEq currentPrice (Except.ok raw)).size = none) := by
  refine ⟨fun rf hrf => ?_, fun hnone hb => ?_⟩
  case refine_2 =>
    simp only [Part000.getTradingDecision, hnone]
    rw [if_pos hb]
    exact ⟨rfl, rfl⟩
  have hpvlt : Part000.finalMargin0 availEq rf (parsedConfidence raw.trading_decision.confidence) *
      (raw.trading_decision.leverage.getD (stageOf totalEq).leverage) < Part000.MIN_OPEN_VALUE →
      ¬ (Part000.MIN_OPEN_VALUE < availEq * (9/10) *
          (raw.trading_decision.leverage.getD (stageOf totalEq).leverage) ∧
          40 ≤ parsedConfidence raw.trading_decision.confidence) →
      Part000.boostedValue availEq rf (parsedConfidence raw.trading_decision.confidence)
        (raw.trading_decision.leverage.getD (stageOf totalEq).leverage) <
        Part000.MIN_OPEN_VALUE := by
    intro hfm hnb
    unfold Part000.boostedValue
    rw [if_neg]
    · exact hfm
    · rintro ⟨_, hB, hC⟩
      exact hnb ⟨hB, hC⟩
  simp only [Part000.getTradingDecision, hrf]
  by_cases hb : toUpperCase raw.trading_decision.action = "BUY" ∨
      toUpperCase raw.trading_decision.action = "SELL"
  · rw [if_pos hb]
    by_cases hpv : Part000.boostedValue availEq rf
        (parsedConfidence raw.trading_decision.confidence)
        (raw.trading_decision.leverage.getD (stageOf totalEq).leverage) <
        Part000.MIN_OPEN_VALUE
    · rw [if_pos hpv]
      refine ⟨fun h => absurd (show "HOLD" = "BUY" ∨ "HOLD" = "SELL" from h) (by decide),
        fun _ _ _ => ⟨rfl, rfl⟩⟩
    · rw [if_neg hpv]
      by_cases hnc : Part000.flooredContracts
          (Part000.boostedValue availEq rf
            (parsedConfidence raw.trading_decision.confidence)
            (raw.trading_decision.leverage.getD (stageOf totalEq).leverage)) currentPrice < 1/100
      · rw [if_pos hnc]
        exact ⟨fun h => absurd (show "HOLD" = "BUY" ∨ "HOLD" = "SELL" from h) (by decide),
          fun _ hfm hnb => absurd (hpvlt hfm hnb) hpv⟩
      · rw [if_neg hnc]
        exact ⟨fun _ => not_lt.mp hpv,
          fun _ hfm hnb => absurd (hpvlt hfm hnb) hpv⟩
  · rw [if_neg hb]
    exact ⟨fun h => absurd h hb, fun hb' _ _ => absurd hb' hb⟩

/-- Witness for C2 (amended): the spec scenario — equity 15, BUY at 10%
confidence, leverage 20 → margin 1.2, notional 24 < 100, confidence below the
40% boost threshold → HOLD with size "0" in the part_000 reconciler — plus
the STAGE_3 case (total equity 100, no risk factor) where a BUY passes
through with size "NaN" (`none`). -/
theorem c2_min_notional_floor_part000_witness :
    (stageOf 15).risk_factor = some (4/5) ∧
    toUpperCase rawC2.trading_decision.action = "BUY" ∧
    Part000.finalMargin0 15 (4/5) (parsedConfidence rawC2.trading_decision.confidence) *
      (rawC2.trading_decision.leverage.getD (stageOf 15).leverage) < Part000.MIN_OPEN_VALUE ∧
    ¬ (Part000.MIN_OPEN_VALUE < 15 * (9/10) *
        (rawC2.trading_decision.leverage.getD (stageOf 15).leverage) ∧
        40 ≤ parsedConfidence rawC2.trading_decision.confidence) ∧
    (Part000.getTradingDecision 15 15 3250 (Except.ok rawC2)).action = "HOLD" ∧
    (Part000.getTradingDecision 15 15 3250 (Except.ok rawC2)).size = some 0 ∧
    (stageOf 100).risk_factor = none ∧
    (Part000.getTradingDecision 100 15 3250 (Except.ok rawC2)).action = "BUY" ∧
    (Part000.getTradingDecision 100 15 3250 (Except.ok rawC2)).size = none := by
  have hrf : (stageOf 15).risk_factor = some (4/5) := by norm_num [stageOf, STAGE_1]
  have hfm : Part000.finalMargin0 15 (4/5) (parsedConfidence rawC2.trading_decision.confidence) *
      (rawC2.trading_decision.leverage.getD (stageOf 15).leverage) < Part000.MIN_OPEN_VALUE := by
    norm_num [Part000.finalMargin0, Part000.MIN_OPEN_VALUE, parsedConfidence, rawC2,
      stageOf, STAGE_1, min_def]
  have hnb : ¬ (Part000.MIN_OPEN_VALUE < 15 * (9/10) *
      (rawC2.trading_decision.leverage.getD (stageOf 15).leverage) ∧
      40 ≤ parsedConfidence rawC2.trading_decision.confidence) := by
    norm_num [Part000.MIN_OPEN_VALUE, parsedConfidence, rawC2]
  have h := ((c2_min_notional_floor_part000 15 15 3250 rawC2).1 (4/5) hrf).2
    (Or.inl (by decide)) hfm hnb
  have hnone : (stageOf 100).risk_factor = none := by norm_num [stageOf, STAGE_3]
  have h2 := (c2_min_notional_floor_part000 100 15 3250 rawC2).2 hnone (Or.inl (by decide))
  refine ⟨hrf, by decide, hfm, hnb, h.1, h.2, hnone, ?_, h2.2⟩
  rw [h2.1]
  decide

/-- Counterexample to C4 as stated: the live reconciler
(src/services/aiService.ts) raises a computed contract count below the 0.01
minimum up to 0.01 via `Math.max` instead of collapsing to HOLD — with an
explicit model size 0.001 (< 0.01) the final decision is BUY with size 0.01,
not HOLD with size "0". -/
theorem c4_size_raised_counterexample :
    rawC4.trading_decision.position_size = some (1/1000) ∧
    (1/1000 : ℚ) < 1/100 ∧
    (AiService.getTradingDecision 15 15 3250 [] (Except.ok rawC4)).action = "BUY" ∧
    (AiService.getTradingDecision 15 15 3250 [] (Except.ok rawC4)).size = some (1/100) := by
  refine ⟨rfl, by norm_num, ?_, ?_⟩ <;>
  norm_num [AiService.getTradingDecision, AiService.sizingStep, AiService.applyRatchet,
    AiService.hasPositionOf, AiService.primaryPositionOf, AiService.riskFactorUsed,
    AiService.targetContractsAlgo, AiService.maxContracts, parsedConfidence, toFixed2,
    stageOf, STAGE_1, CONTRACT_VAL_ETH, rawC4, toUpperCase_BUY, Int.floor_eq_iff]

/-- Claim C4 (amended): in the part_000 reconciler, whenever the active stage
defines a risk factor (total equity < 80), every final size is a non-negative
value with at most 2 decimal digits, a surviving BUY/SELL size is exactly the
2-decimal floor of positionValue / (contractVal × price), and a floored
contract count below the 0.01 minimum collapses the action to HOLD with size
"0" (never raised); at STAGE_3 the stage defines no risk factor and a model
BUY/SELL passes through with size "NaN" (`none`), neither floored nor
collapsed. -/
theorem c4_floor_and_collapse_part000
    (totalEq availEq currentPrice : ℚ) (raw : ModelDecision)
    (hp : 0 < currentPrice) :
    (∀ rf : ℚ, (stageOf totalEq).risk_factor = some rf →
      (∃ s, (Part000.getTradingDecision totalEq availEq currentPrice (Except.ok raw)).size = some s ∧
        0 ≤ s ∧ (100 * s).den = 1) ∧
      ((Part000.getTradingDecision totalEq availEq currentPrice (Except.ok raw)).action = "BUY" ∨
       (Part000.getTradingDecision totalEq availEq currentPrice (Except.ok raw)).action = "SELL" →
        (Part000.getTradingDecision totalEq availEq currentPrice (Except.ok raw)).size =
          some (Part000.flooredContracts
            (Part000.boostedValue availEq rf (parsedConfidence raw.trading_decision.confidence)
              (raw.trading_decision.leverage.getD (stageOf totalEq).leverage)) currentPrice)) ∧
      ((toUpperCase raw.trading_decision.action = "BUY" ∨
        toUpperCase raw.trading_decision.action = "SELL") →
        ¬ Part000.boostedValue availEq rf (parsedConfidence raw.trading_decision.confidence)
            (raw.trading_decision.leverage.getD (stageOf totalEq).leverage) <
            Part000.MIN_OPEN_VALUE →
        Part000.flooredContracts
            (Part000.boostedValue availEq rf (parsedConfidence raw.trading_decision.confidence)
              (raw.trading_decision.leverage.getD (stageOf totalEq).leverage)) currentPrice <
            1/100 →
        (Part000.getTradingDecision totalEq availEq currentPrice (Except.ok raw)).action = "HOLD" ∧
        (Part000.getTradingDecision totalEq availEq currentPrice (Except.ok raw)).size = some 0)) ∧
    ((stageOf totalEq).risk_factor = none →
      (toUpperCase raw.trading_decision.action = "BUY" ∨
       toUpperCase raw.trading_decision.action = "SELL") →
      (Part000.getTradingDecision totalEq availEq currentPrice (Except.ok raw)).action =
        toUpperCase raw.trading_decision.action ∧
      (Part000.getTradingDecision totalEq availEq currentPrice (Except.ok raw)).size = none) := by
  refine ⟨fun rf hrf => ?_, fun hnone hb => ?_⟩
  case refine_2 =>
    simp only [Part000.getTradingDecision, hnone]
    rw [if_pos hb]
    exact ⟨rfl, rfl⟩
  have hzero : (0:ℚ) ≤ 0 ∧ ((100:ℚ) * 0).den = 1 := by norm_num
  have hfc : ∀ pv : ℚ, ¬ pv < Part000.MIN_OPEN_VALUE →
      0 ≤ Part000.flooredContracts pv currentPrice ∧
      (100 * Part000.flooredContracts pv currentPrice).den = 1 := by
    intro pv hpv
    have hpv100 : (100:ℚ) ≤ pv := not_lt.mp hpv
    have hcp : (0:ℚ) < CONTRACT_VAL_ETH * currentPrice := by
      rw [CONTRACT_VAL_ETH]; positivity
    have hraw : (0:ℚ) ≤ 100 * (pv / (CONTRACT_VAL_ETH * currentPrice)) := by positivity
    constructor
    · unfold Part000.flooredContracts
      have h1 : (0:ℤ) ≤ Int.floor (100 * (pv / (CONTRACT_VAL_ETH * currentPrice))) :=
        Int.floor_nonneg.mpr hraw
      have h2 : (0:ℚ) ≤ ((Int.floor (100 * (pv / (CONTRACT_VAL_ETH * currentPrice))) : ℤ) : ℚ) := by
        exact_mod_cast h1
      linarith
    · unfold Part000.flooredContracts
      have h3 : (100:ℚ) * (((Int.floor (100 * (pv / (CONTRACT_VAL_ETH * currentPrice))) : ℤ) : ℚ) / 100) =
          ((Int.floor (100 * (pv / (CONTRACT_VAL_ETH * currentPrice))) : ℤ) : ℚ) := by
        field_simp
      rw [h3, Rat.den_intCast]
  simp only [Part000.getTradingDecision, hrf]
  by_cases hb : toUpperCase raw.trading_decision.action = "BUY" ∨
      toUpperCase raw.trading_decision.action = "SELL"
  · rw [if_pos hb]
    by_cases hpv : Part000.boostedValue availEq rf
        (parsedConfidence raw.trading_decision.confidence)
        (raw.trading_decision.leverage.getD (stageOf totalEq).leverage) <
        Part000.MIN_OPEN_VALUE
    · rw [if_pos hpv]
      exact ⟨⟨0, rfl, hzero⟩,
        fun h => absurd (show "HOLD" = "BUY" ∨ "HOLD" = "SELL" from h) (by decide),
        fun _ hpv' _ => absurd hpv hpv'⟩
    · rw [if_neg hpv]
      by_cases hnc : Part000.flooredContracts
          (Part000.boostedValue availEq rf
            (parsedConfidence raw.trading_decision.confidence)
            (raw.trading_decision.leverage.getD (stageOf totalEq).leverage)) currentPrice < 1/100
      · rw [if_pos hnc]
        exact ⟨⟨0, rfl, hzero⟩,
          fun h => absurd (show "HOLD" = "BUY" ∨ "HOLD" = "SELL" from h) (by decide),
          fun _ _ _ => ⟨rfl, rfl⟩⟩
      · rw [if_neg hnc]
        exact ⟨⟨Part000.flooredContracts
            (Part000.boostedValue availEq rf
              (parsedConfidence raw.trading_decision.confidence)
              (raw.trading_decision.leverage.getD (stageOf totalEq).leverage)) currentPrice,
            rfl, hfc _ hpv⟩,
          fun _ => rfl,
          fun _ _ hnc' => absurd hnc' hnc⟩
  · rw [if_neg hb]
    exact ⟨⟨0, rfl, hzero⟩, fun h => absurd h hb, fun hb' _ _ => absurd hb' hb⟩

/-- Witness for C4 (amended): equity 15, BUY at 80% confidence, leverage 20,
price 3250 in the part_000 reconciler → positionValue 192, floored size
0.59 = some (59/100), non-negative with 2 decimal digits; and at STAGE_3
(total equity 100) the same BUY passes through with size "NaN" (`none`). -/
theorem c4_floor_and_collapse_part000_witness :
    (stageOf 15).risk_factor = some (4/5) ∧
    (0:ℚ) < 3250 ∧
    (Part000.getTradingDecision 15 15 3250 (Except.ok rawC3)).action = "BUY" ∧
    (Part000.getTradingDecision 15 15 3250 (Except.ok rawC3)).size = some (59/100) ∧
    (0:ℚ) ≤ 59/100 ∧ ((100:ℚ) * (59/100)).den = 1 ∧
    (stageOf 100).risk_factor = none ∧
    (Part000.getTradingDecision 100 15 3250 (Except.ok rawC3)).action = "BUY" ∧
    (Part000.getTradingDecision 100 15 3250 (Except.ok rawC3)).size = none := by
  have hrf : (stageOf 15).risk_factor = some (4/5) := by norm_num [stageOf, STAGE_1]
  have hact : (Part000.getTradingDecision 15 15 3250 (Except.ok rawC3)).action = "BUY" := by
    norm_num [Part000.getTradingDecision, Part000.boostedValue, Part000.finalMargin0,
      Part000.MIN_OPEN_VALUE, Part000.flooredContracts, parsedConfidence, stageOf,
      STAGE_1, CONTRACT_VAL_ETH, rawC3, toUpperCase_BUY, min_def, Int.floor_eq_iff]
  have h := ((c4_floor_and_collapse_part000 15 15 3250 rawC3 (by norm_num)).1 (4/5) hrf).2.1
    (Or.inl hact)
  have hnone : (stageOf 100).risk_factor = none := by norm_num [stageOf, STAGE_3]
  have h3 := (c4_floor_and_collapse_part000 100 15 3250 rawC3 (by norm_num)).2 hnone
    (Or.inl (by decide))
  refine ⟨hrf, by norm_num, hact, ?_, by norm_num, by norm_num, hnone, ?_, h3.2⟩
  · rw [h]
    norm_num [Part000.flooredContracts, Part000.boostedValue, Part000.finalMargin0,
      Part000.MIN_OPEN_VALUE, parsedConfidence, stageOf, STAGE_1, CONTRACT_VAL_ETH,
      rawC3, min_def, Int.floor_eq_iff]
  · rw [h3.1]
    decide

lemma foldl_fixed {α β : Type} (f : α → β → α) (l : List β)
    (h : ∀ a b, b ∈ l → f a b = a) : ∀ s : α, l.foldl f s = s := by
  induction l with
  | nil => intro s; rfl
  | cons b l ih =>
      intro s
      rw [List.foldl_cons, h s b (List.mem_cons_self b l)]
      exact ih (fun a c hc => h a c (List.mem_cons_of_mem b hc)) s

/-- Counterexample to C5 as stated: on the empty series calcEMA evaluates
`prices[prices.length - 1]`, i.e. `undefined` — there is no "last price" to
return, so the documented sentinel (a number) is not produced. -/
theorem c5_ema_empty_counterexample : AiService.calcEMA ([] : List ℚ) 5 = none := rfl

/-- Claim C5 (amended): on every price series shorter than its period, each
indicator returns its documented neutral value — SMA and stddev 0, RSI 50,
MACD {0,0,0}, Bollinger {0,0,0}, KDJ {50,50,50} — and EMA returns the last
element of the slice (`getLast?`), which exists only for nonempty input: on
the empty series EMA yields JS `undefined` (`none`), the one exception. -/
theorem c5_short_series_sentinels :
    (∀ (prices : List ℚ) (period : ℕ), prices.length < period →
      AiService.calcSMA prices period = 0) ∧
    (∀ (prices : List ℚ) (period : ℕ), prices.length < period →
      AiService.calcStdDev prices period = 0) ∧
    (∀ (prices : List ℚ) (period : ℕ), prices.length < period + 1 →
      AiService.calcRSI prices period = 50) ∧
    (∀ (prices : List ℚ) (period : ℕ), prices.length < period →
      AiService.calcEMA prices period = prices.getLast?) ∧
    (∀ prices : List ℚ, prices.length < 26 →
      AiService.calcMACD prices = ⟨0, 0, 0⟩) ∧
    (∀ (prices : List ℚ) (period : ℕ) (multiplier : ℚ), prices.length < period →
      AiService.calcBollinger prices period multiplier = ⟨0, 0, 0⟩) ∧
    (∀ (highs lows closes : List ℚ) (period : ℕ), closes.length < period →
      AiService.calcKDJ highs lows closes period = ⟨50, 50, 50⟩) := by
  have hsma : ∀ (prices : List ℚ) (period : ℕ), prices.length < period →
      AiService.calcSMA prices period = 0 := by
    intro prices period h
    unfold AiService.calcSMA
    rw [if_pos h]
  have hstd : ∀ (prices : List ℚ) (period : ℕ), prices.length < period →
      AiService.calcStdDev prices period = 0 := by
    intro prices period h
    unfold AiService.calcStdDev
    rw [if_pos h]
  refine ⟨hsma, hstd, ?_, ?_, ?_, ?_, ?_⟩
  · intro prices period h
    unfold AiService.calcRSI
    rw [if_pos h]
  · intro prices period h
    unfold AiService.calcEMA
    rw [if_pos h]
  · intro prices h
    unfold AiService.calcMACD
    rw [if_pos h]
  · intro prices period multiplier h
    unfold AiService.calcBollinger
    rw [hsma prices period h, hstd prices period h]
    simp [AiService.BollingerResult.mk.injEq]
  · intro highs lows closes period h
    unfold AiService.calcKDJ
    have hskip : ∀ (s : ℚ × ℚ × ℚ) (i : ℕ), i ∈ List.range closes.length →
        AiService.kdjStep highs lows closes period s i = s := by
      intro s i hi
      have hi1 : i < closes.length := List.mem_range.mp hi
      have hi2 : i < period - 1 :=
        Nat.lt_of_lt_of_le hi1 (Nat.le_sub_one_of_lt h)
      unfold AiService.kdjStep
      rw [if_pos hi2]
    rw [foldl_fixed _ _ hskip (50, 50, 50)]

/-- Witness for C5 (amended) at concrete short inputs. -/
theorem c5_short_series_sentinels_witness :
    AiService.calcSMA [] 3 = 0 ∧
    AiService.calcStdDev [] 3 = 0 ∧
    AiService.calcRSI [] 14 = 50 ∧
    AiService.calcEMA [3] 5 = some 3 ∧
    AiService.calcMACD [] = ⟨0, 0, 0⟩ ∧
    AiService.calcBollinger [] 20 2 = ⟨0, 0, 0⟩ ∧
    AiService.calcKDJ [] [] [] 9 = ⟨50, 50, 50⟩ := by
  obtain ⟨h1, h2, h3, h4, h5, h6, h7⟩ := c5_short_series_sentinels
  exact ⟨h1 [] 3 (by norm_num), h2 [] 3 (by norm_num), h3 [] 14 (by norm_num),
    by rw [h4 [3] 5 (by norm_num)]; rfl,
    h5 [] (by norm_num), h6 [] 20 2 (by norm_num), h7 [] [] [] 9 (by norm_num)⟩

/-- Claim C6: the analyzer's break-even price is the exchange-supplied
breakEvenPx whenever it parses to a positive number; otherwise it is derived
locally as entry × (1+fee)/(1−fee) for a long and entry × (1−fee)/(1+fee)
for a short, with fee = TAKER_FEE_RATE = 0.0005. -/
theorem c6_breakeven_preference :
    TAKER_FEE_RATE = 1/2000 ∧
    (∀ (side : Side) (entry : ℚ) (bpx : Option ℚ) (v : ℚ),
      bpx = some v → 0 < v → AiService.breakevenPrice side entry bpx = v) ∧
    (∀ (side : Side) (entry : ℚ) (bpx : Option ℚ), bpx.getD 0 ≤ 0 →
      AiService.breakevenPrice side entry bpx =
        (if side = Side.long then entry * (1 + TAKER_FEE_RATE) / (1 - TAKER_FEE_RATE)
         else entry * (1 - TAKER_FEE_RATE) / (1 + TAKER_FEE_RATE))) := by
  refine ⟨rfl, ?_, ?_⟩
  · intro side entry bpx v hbpx hv
    unfold AiService.breakevenPrice
    rw [hbpx, Option.getD_some, if_pos hv]
  · intro side entry bpx h
    unfold AiService.breakevenPrice
    rw [if_neg (not_lt.mpr h)]

/-- Witness for C6: a positive exchange breakeven 3005 is preferred; with no
exchange value a short position derives entry × (1−fee)/(1+fee). -/
theorem c6_breakeven_preference_witness :
    (0:ℚ) < 3005 ∧
    AiService.breakevenPrice Side.long 3000 (some 3005) = 3005 ∧
    ((none : Option ℚ).getD 0 ≤ 0) ∧
    AiService.breakevenPrice Side.short 3000 none =
      3000 * (1 - TAKER_FEE_RATE) / (1 + TAKER_FEE_RATE) := by
  obtain ⟨_, h1, h2⟩ := c6_breakeven_preference
  refine ⟨by norm_num, h1 Side.long 3000 (some 3005) 3005 rfl (by norm_num),
    by norm_num, ?_⟩
  rw [h2 Side.short 3000 none (by norm_num)]
  simp
